import Mathlib

/-!
Verification development for the Roda delivery-drivers chain pipeline.

Each definition below is a shallow embedding of a function of the Python
source; numeric columns are modelled over `ℚ` (pandas floats, exact
arithmetic), identifiers over `ℕ`/`ℤ`, and external effects (blockchain
submissions, Airtable updates, S3 flushes) as explicit data threaded
through the recursion.
-/

/-! ## Route transform: `lambda_process_tribu_data.py` -/

/-- One raw Tribu route row, restricted to the columns the split step reads
and writes (`o_fecha_inicial`, `o_fecha_final` as instants in seconds,
`f_distancia` in meters).  All other columns are carried unchanged by
`row.copy()` in the source and are irrelevant here. -/
structure RouteRow where
  o_fecha_inicial : ℚ
  o_fecha_final : ℚ
  f_distancia : ℚ
deriving DecidableEq, Repr

/-- `adjust_route_distribution` from `lambda_process_tribu_data.py`:
if the distance exceeds `max_distance`, the number of real routes is the
floor division `route_distance // avg_distance` and the per-route distance
is `route_distance / real_routes`; then a rounding-correction step shrinks
the per-route distance if the distributed total exceeds the original. -/
def adjust_route_distribution (route_distance max_distance avg_distance : ℚ) : ℤ × ℚ :=
  let p : ℤ × ℚ :=
    if route_distance > max_distance then
      let real_routes : ℤ := ⌊route_distance / avg_distance⌋
      (real_routes, route_distance / (real_routes : ℚ))
    else
      (1, route_distance)
  let total_distributed_distance : ℚ := p.2 * (p.1 : ℚ)
  if total_distributed_distance > route_distance then
    (p.1, p.2 - (total_distributed_distance - route_distance) / (p.1 : ℚ))
  else
    p

/-- Inner loop of `expand_routes_based_on_real_routes`: walks the list of
normalized child durations, threading the running `start_time`; the last
child's end is forced to the original `o_fecha_final`, and each child's
distance is the original distance scaled by its share of the total
duration. -/
def expand_routes_loop (row : RouteRow) (total_duration : ℚ) :
    ℚ → List ℚ → List RouteRow
  | _, [] => []
  | start_time, [d] =>
    [{ o_fecha_inicial := start_time
       o_fecha_final := row.o_fecha_final
       f_distancia := row.f_distancia * (d / total_duration) }]
  | start_time, d :: d2 :: ds =>
    { o_fecha_inicial := start_time
      o_fecha_final := start_time + d
      f_distancia := row.f_distancia * (d / total_duration) } ::
    expand_routes_loop row total_duration (start_time + d) (d2 :: ds)

/-- `expand_routes_based_on_real_routes` restricted to a single input row:
the jitter draws (`np.random.uniform(0.8, 1.2, num_routes)`) are passed in
as `duration_variations`; they are normalized so the child durations sum to
the row's total duration. -/
def expand_routes_based_on_real_routes (row : RouteRow)
    (duration_variations : List ℚ) : List RouteRow :=
  let total_duration_seconds := row.o_fecha_final - row.o_fecha_inicial
  let normalized_durations :=
    duration_variations.map (fun v => v / duration_variations.sum * total_duration_seconds)
  expand_routes_loop row total_duration_seconds row.o_fecha_inicial normalized_durations

/-- `apply_split_routes` restricted to a single row: compute the number of
real routes with `adjust_route_distribution`, draw that many jitter values
from `draw`, and expand. -/
def apply_split_routes_row (row : RouteRow) (avg_distance max_distance : ℚ)
    (draw : ℕ → ℚ) : List RouteRow :=
  let real_routes := (adjust_route_distribution row.f_distancia max_distance avg_distance).1
  expand_routes_based_on_real_routes row ((List.range real_routes.toNat).map draw)

/-! ## Scoring engine: `ScoringModel/main.py` -/

/-- Breakpoints for average delay days (`limites_atraso_promedio`). -/
def limites_atraso_promedio : List ℚ := [0, 7, 15, 26, 31, 60, 90]

/-- Scores for average delay ranges (`puntajes_atraso_promedio`). -/
def puntajes_atraso_promedio : List ℚ := [1000, 800, 600, 400, 100, 0]

/-- Breakpoints for cumulative delay days (`limites_atraso_acumulado`). -/
def limites_atraso_acumulado : List ℚ := [0, 20, 40, 69, 180, 250]

/-- Scores for cumulative delay ranges (`puntajes_atraso_acumulado`). -/
def puntajes_atraso_acumulado : List ℚ := [1000, 700, 400, 200, 0]

/-- Inner loop of `asignar_puntajes_personalizados.asignar_puntaje`:
walk the limits starting from index 1 paired with the scores from index 0;
return the first score whose limit strictly exceeds the value, and the last
score when the loop runs out. -/
def asignar_puntaje_loop (valor ultimo : ℚ) : List ℚ → List ℚ → ℚ
  | c :: cs, p :: ps => if valor < c then p else asignar_puntaje_loop valor ultimo cs ps
  | _, _ => ultimo

/-- `asignar_puntajes_personalizados` from `ScoringModel/main.py`, for one
value: piecewise-constant mapping of `valor` through `limites`/`puntajes`
(the loop runs over `limites[1:]`; values at or above the last limit get
`puntajes[-1]`). -/
def asignar_puntajes_personalizados (limites puntajes : List ℚ) (valor : ℚ) : ℚ :=
  asignar_puntaje_loop valor (puntajes.getLastD 0) (limites.drop 1) puntajes

/-- `Puntaje_Del_Credito` of `calcular_puntajes`: the mean of the two
piecewise-constant scores of the credit's average and cumulative delays. -/
def puntaje_del_credito (dias_atraso_prom dias_atraso_acum : ℚ) : ℚ :=
  (asignar_puntajes_personalizados limites_atraso_promedio puntajes_atraso_promedio dias_atraso_prom
    + asignar_puntajes_personalizados limites_atraso_acumulado puntajes_atraso_acumulado dias_atraso_acum) / 2

/-- `ponderar_puntajes` from `ScoringModel/main.py`: weights `1, 2, …, n`
normalized to sum 1, zipped against the score list in its given order. -/
def ponderar_puntajes (puntajes : List ℚ) : ℚ :=
  match puntajes with
  | [] => 0
  | [p] => p
  | _ =>
    let pesos := (List.range puntajes.length).map (fun i : ℕ => ((i : ℚ) + 1))
    let suma_pesos := pesos.sum
    let pesos_normalizados := pesos.map (fun peso => peso / suma_pesos)
    ((pesos_normalizados.zip puntajes).map (fun x => x.1 * x.2)).sum

/-- A credit row as consumed by `calcular_puntajes` (client id, issuance
date `Fecha desembolso` as an instant, and the two delay columns). -/
structure Credito where
  id_cliente : ℕ
  fecha_desembolso : ℚ
  dias_atraso_prom : ℚ
  dias_atraso_acum : ℚ
deriving DecidableEq, Repr

/-- The per-client score list built by
`DF_solicitud_credito.groupby(..)['Puntaje_Del_Credito'].apply(list)`:
the client's credits in their original row order (pandas `groupby`
preserves row order within a group; no sort is applied). -/
def puntajes_por_cliente (creditos : List Credito) (cliente : ℕ) : List ℚ :=
  (creditos.filter (fun c => c.id_cliente == cliente)).map
    (fun c => puntaje_del_credito c.dias_atraso_prom c.dias_atraso_acum)

/-- `Puntaje_Ponderado_Creditos` for one client: `ponderar_puntajes` over
the client's credit scores in input row order. -/
def puntaje_ponderado_cliente (creditos : List Credito) (cliente : ℕ) : ℚ :=
  ponderar_puntajes (puntajes_por_cliente creditos cliente)

/-- Modelled from the spec (for comparison with the code): insertion of a
credit into a list sorted ascending by issuance date. -/
def insertar_por_fecha (c : Credito) : List Credito → List Credito
  | [] => [c]
  | d :: ds => if c.fecha_desembolso ≤ d.fecha_desembolso then c :: d :: ds
               else d :: insertar_por_fecha c ds

/-- Modelled from the spec: sort a credit list ascending by issuance date. -/
def ordenar_por_fecha : List Credito → List Credito
  | [] => []
  | c :: cs => insertar_por_fecha c (ordenar_por_fecha cs)

/-- Modelled from the spec (§4.4 per-client aggregate): sort the client's
credits by issuance date ascending, then apply the triangular weighted
mean.  This is the sentence the code is compared against. -/
def puntaje_ponderado_cliente_spec (creditos : List Credito) (cliente : ℕ) : ℚ :=
  ponderar_puntajes
    ((ordenar_por_fecha (creditos.filter (fun c => c.id_cliente == cliente))).map
      (fun c => puntaje_del_credito c.dias_atraso_prom c.dias_atraso_acum))

/-- Modelled from the spec: the triangular weighted mean of a score list as
written — weights `1, 2, …, n` normalized to sum 1, applied in order. -/
def media_ponderada_triangular (ps : List ℚ) : ℚ :=
  let pesos := (List.range ps.length).map (fun i : ℕ => ((i : ℚ) + 1))
  ((pesos.map (fun w => w / pesos.sum)).zip ps).map (fun x => x.1 * x.2) |>.sum

/-- `bonus_value` from `ScoringModel/main.py`. -/
def bonus_value : ℚ := 50

/-- Weights `W1..W4` from `ScoringModel/main.py`. -/
def W1 : ℚ := 0

def W2 : ℚ := 1 / 10

def W3 : ℚ := 1 / 10

def W4 : ℚ := 8 / 10

/-- `asignar_bonus_acuerdos` for one credit: add `bonus_value` when the
fulfilled/total agreements ratio equals 1 and the credit's score is
non-zero. -/
def asignar_bonus_acuerdos (num_acuerdos_cumplidos cantidad_acuerdos puntaje : ℚ) : ℚ :=
  if num_acuerdos_cumplidos / cantidad_acuerdos = 1 ∧ puntaje ≠ 0 then puntaje + bonus_value
  else puntaje

/-- `calcular_score` from `ScoringModel/main.py` (`W3`, `W4` are read from
the module globals, the first three arguments are passed in). -/
def calcular_score (puntaje_inicial w1 w2 lambda_val beta puntajes_credito : ℚ) : ℚ :=
  puntaje_inicial * w1 + lambda_val * w2 + beta * W3 + puntajes_credito * W4

/-- The columns of a contact row read by `aplicar_calculo`. -/
structure ContactoScore where
  tiene_credito_perdido : Bool
  num_creditos_puntaje : ℚ
  monto_prom_creditos_puntaje : ℚ
  puntaje_ponderado_creditos : ℚ
deriving DecidableEq, Repr

/-- `aplicar_calculo` from `ScoringModel/main.py`: 0 for clients with a
lost credit, otherwise `calcular_score` of the initial score 500, the two
quartile scores and the weighted credit score. -/
def aplicar_calculo (row : ContactoScore) : ℚ :=
  if row.tiene_credito_perdido then 0
  else calcular_score 500 W1 W2 row.num_creditos_puntaje row.monto_prom_creditos_puntaje
    row.puntaje_ponderado_creditos

/-! ## Social adjustment: `ScoringModel/social_score.py` -/

/-- The columns of a contact row read by the final-score lambda of
`afectaciones_por_referidos` (`social_score.py`, lines 350–357). -/
structure ContactoSocial where
  tiene_credito_perdido : Bool
  referido_perdido : Bool
  referidor_perdido : Bool
  puntaje_final : ℚ
  ajuste_calculado : ℚ
deriving DecidableEq, Repr

/-- The unclipped `Puntaje_Final_Ajustado` lambda: 0 whenever the client
has a lost credit, a lost referred client or a lost referrer, otherwise
`Puntaje_Final + Puntaje_Final * ajuste_calculado`. -/
def puntaje_final_ajustado_sin_clip (r : ContactoSocial) : ℚ :=
  if r.referido_perdido || r.tiene_credito_perdido || r.referidor_perdido then 0
  else r.puntaje_final + r.puntaje_final * r.ajuste_calculado

/-- Pandas `clip(lower=0, upper=1000)`. -/
def clip_0_1000 (x : ℚ) : ℚ := min (max x 0) 1000

/-- `Puntaje_Final_Ajustado` after the clip applied in
`afectaciones_por_referidos`. -/
def puntaje_final_ajustado (r : ContactoSocial) : ℚ :=
  clip_0_1000 (puntaje_final_ajustado_sin_clip r)

/-! ## String helpers (`"..." in msg` of Python) -/

/-- Whether `p` is a prefix of `t`, over character lists. -/
def chars_pre : List Char → List Char → Bool
  | [], _ => true
  | _ :: _, [] => false
  | a :: as, b :: bs => a == b && chars_pre as bs

/-- Whether `p` occurs as a contiguous segment of the second list. -/
def chars_infix (p : List Char) : List Char → Bool
  | [] => p.isEmpty
  | t :: ts => chars_pre p (t :: ts) || chars_infix p ts

/-- Python's `pattern in s` on strings: substring containment. -/
def str_contains (s pattern : String) : Bool :=
  chars_infix pattern.toList s.toList

/-! ## Route publisher: `lambda_blockchain_publish.py` -/

/-- Checkpoint-map entry recorded for a route: either the metadata of a
mined transaction, or the `"already minted"` marker written when the chain
reports the token as already existing. -/
inductive TxMeta where
  | mined (nonce : ℕ) (gas_price : ℕ) (tx_hash : String)
  | already_minted
deriving DecidableEq, Repr

/-- Outcome of one attempted submission, as observed by the publisher:
a receipt was obtained, no receipt arrived (poll gave up), or an exception
with the given message was raised somewhere in the attempt. -/
inductive TxResult where
  | confirmed (gas_price : ℕ) (tx_hash : String)
  | noReceipt
  | errorMsg (msg : String)
deriving DecidableEq, Repr

/-- One route of the input CSV, together with the environment's
observations for its iteration: the elapsed wall time measured just before
the publish attempt, and the result of the attempt if one is made. -/
structure RouteObs where
  routeID : ℕ
  elapsed : ℚ
  result : TxResult
deriving DecidableEq, Repr

/-- The route loop of `publish_to_celo` (`lambda_blockchain_publish.py`):
skip routes already in the checkpoint map; stop with `all_success = False`
once elapsed time exceeds `0.9 · timeout`; on a mined receipt record the
checkpoint entry and bump the nonce; on a missing receipt stop; on an
`"ERC721: token already minted"` revert record an `already minted` entry
and continue; on any other error stop.  Returns
`(all_success, published_routes)`. -/
def publish_to_celo_routes (timeout : ℚ) :
    List RouteObs → ℕ → List (ℕ × TxMeta) → Bool × List (ℕ × TxMeta)
  | [], _, published => (true, published)
  | r :: rs, nonce, published =>
    if (published.map Prod.fst).contains r.routeID then
      publish_to_celo_routes timeout rs nonce published
    else if r.elapsed > timeout * 0.9 then
      (false, published)
    else
      match r.result with
      | .confirmed gp h =>
        publish_to_celo_routes timeout rs (nonce + 1)
          (published ++ [(r.routeID, .mined nonce gp h)])
      | .noReceipt => (false, published)
      | .errorMsg m =>
        if str_contains m "ERC721: token already minted" then
          publish_to_celo_routes timeout rs nonce (published ++ [(r.routeID, .already_minted)])
        else (false, published)

/-- The route-publisher `handler`: run the loop, then always flush the
checkpoint map to S3 (first component), and either return the success
string or raise an `Exception` (modelled as `Except.error`) when not all
routes were published. -/
def route_publisher_handler (timeout : ℚ) (nonce0 : ℕ) (all_routes : List RouteObs)
    (published0 : List (ℕ × TxMeta)) : List (ℕ × TxMeta) × Except String String :=
  let r := publish_to_celo_routes timeout all_routes nonce0 published0
  (r.2,
    if r.1 then Except.ok "FINISHED SUCCESSFULLY: blockchain publisher task"
    else Except.error ("Only " ++ toString r.2.length ++ " transaction were published of "
      ++ toString all_routes.length ++ "."))

/-! ## Credit publisher: `credit_blockchain_publisher.py` -/

/-- One credit record with its publication flag and the observed outcome
of the submission attempt. -/
structure CreditObs where
  creditID : ℕ
  is_published : Bool
  result : TxResult
deriving DecidableEq, Repr

/-- The credit loop of `publish_to_celo` (`credit_blockchain_publisher.py`):
skip published credits; on a receipt mark the credit as published in
Airtable (accumulated in `marked`) and bump the nonce; on a missing receipt
return `(False, count)`; on an `"ERC721: token already minted"` revert mark
the credit published and continue; any other exception is re-raised
(`Except.error`).  Airtable flag updates performed before the failure
persist, hence `marked` is returned in every case. -/
def publish_to_celo_credits :
    List CreditObs → ℕ → ℕ → List ℕ → List ℕ × Except String (Bool × ℕ)
  | [], _, count, marked => (marked, .ok (true, count))
  | c :: cs, nonce, count, marked =>
    if c.is_published then publish_to_celo_credits cs nonce count marked
    else
      match c.result with
      | .confirmed _ _ => publish_to_celo_credits cs (nonce + 1) (count + 1) (marked ++ [c.creditID])
      | .noReceipt => (marked, .ok (false, count))
      | .errorMsg m =>
        if str_contains m "ERC721: token already minted" then
          publish_to_celo_credits cs nonce (count + 1) (marked ++ [c.creditID])
        else (marked, .error m)

/-! ## Payment publisher: `payment_blockchain_publisher.py` -/

/-- Observed outcome of one `send_transaction_and_update_airtable` call:
receipt obtained (payment marked published, returns `(True, nonce+1)`),
no receipt (`(False, nonce)`), or an exception whose message is then
classified. -/
inductive PayAttempt where
  | ok
  | noReceipt
  | raised (msg : String)
deriving DecidableEq, Repr

/-- The exception classification of `send_transaction_and_update_airtable`:
`"Panic error 0x11"` → `OverflowError`, a message containing `"revert"`
(case-insensitive) → `RevertError`, anything else →
`PaymentTransactionError`. -/
inductive PayErrKind where
  | overflow
  | reverted
  | generic
deriving DecidableEq, Repr

/-- Classify an exception message as `send_transaction_and_update_airtable`
does. -/
def classify_error (m : String) : PayErrKind :=
  if str_contains m "Panic error 0x11" then .overflow
  else if str_contains m.toLower "revert" then .reverted
  else .generic

/-- One payment record with its fields and the environment's observations:
the first attempt's outcome, the `outstandingBalance(creditId)` the
contract reports if it is re-read, and the retry attempt's outcome. -/
structure PaymentObs where
  paymentID : ℕ
  creditID : ℕ
  amount : ℤ
  is_published : Bool
  first_attempt : PayAttempt
  outstanding_balance : ℤ
  retry_attempt : PayAttempt
deriving DecidableEq, Repr

/-- The mutable state of the payment loop: the account nonce, the
`all_success` flag, the published count, every `(paymentID, amount)`
submission handed to `send_transaction_and_update_airtable`, and the
payments marked `PublishedToCelo…` in Airtable. -/
structure PayState where
  nonce : ℕ
  all_success : Bool
  count : ℕ
  submissions : List (ℕ × ℤ)
  marked : List ℕ
deriving DecidableEq, Repr

/-- The payment loop of `publish_to_celo` (`payment_blockchain_publisher.py`):
skip published payments; submit; on success count and mark; on a missing
receipt set `all_success := False` and continue; on `OverflowError` re-read
the outstanding balance and re-submit exactly once with that amount (a
failed retry sets `all_success := False` and the loop continues); on
`RevertError` mark the payment published and continue; on a generic
`PaymentTransactionError` set `all_success := False` and continue. -/
def publish_to_celo_payments : List PaymentObs → PayState → PayState
  | [], st => st
  | p :: ps, st =>
    if p.is_published then publish_to_celo_payments ps st
    else
      let st1 : PayState := { st with submissions := st.submissions ++ [(p.paymentID, p.amount)] }
      match p.first_attempt with
      | .ok => publish_to_celo_payments ps
          { st1 with nonce := st1.nonce + 1, count := st1.count + 1,
                     marked := st1.marked ++ [p.paymentID] }
      | .noReceipt => publish_to_celo_payments ps { st1 with all_success := false }
      | .raised m =>
        match classify_error m with
        | .overflow =>
          let st2 : PayState :=
            { st1 with submissions := st1.submissions ++ [(p.paymentID, p.outstanding_balance)] }
          match p.retry_attempt with
          | .ok => publish_to_celo_payments ps
              { st2 with nonce := st2.nonce + 1, count := st2.count + 1,
                         marked := st2.marked ++ [p.paymentID] }
          | .noReceipt => publish_to_celo_payments ps { st2 with all_success := false }
          | .raised _ => publish_to_celo_payments ps { st2 with all_success := false }
        | .reverted => publish_to_celo_payments ps
            { st1 with count := st1.count + 1, marked := st1.marked ++ [p.paymentID] }
        | .generic => publish_to_celo_payments ps { st1 with all_success := false }

/-! ## Route-ID counter: `configure_roda_ids` of `lambda_process_tribu_data.py` -/

/-- `extract_last_ID`: the maximum of the `poderosita_ruta` column of the
historic CSV, or the floor value 100000 when the store holds no usable
rows. -/
def extract_last_ID : List ℤ → ℤ
  | [] => 100000
  | x :: xs => xs.foldl max x

/-- `create_ids`: assign `last_id + 1, last_id + 2, …` to the `n` rows of
the DataFrame in row order. -/
def create_ids (last_id : ℤ) (n : ℕ) : List ℤ :=
  (List.range n).map (fun i : ℕ => last_id + 1 + (i : ℤ))

/-- `configure_roda_ids` for a run over `n` surviving rows: read the last
historic ID, assign fresh IDs, and append them to the historic store
(`update_csv_in_s3` concatenates the new rows onto the existing CSV).
Returns `(assigned ids, updated historic store)`. -/
def configure_roda_ids (historic : List ℤ) (n : ℕ) : List ℤ × List ℤ :=
  let ids := create_ids (extract_last_ID historic) n
  (ids, historic ++ ids)

/-! ## Helper lemmas: route splitting -/

theorem expand_routes_loop_length (row : RouteRow) (t : ℚ) :
    ∀ (ds : List ℚ) (s : ℚ), (expand_routes_loop row t s ds).length = ds.length := by
  intro ds
  induction ds with
  | nil => intro s; rfl
  | cons d ds ih =>
    intro s
    cases ds with
    | nil => rfl
    | cons d2 ds2 => simpa [expand_routes_loop] using ih (s + d)

theorem expand_routes_loop_dist_sum (row : RouteRow) (t : ℚ) :
    ∀ (ds : List ℚ) (s : ℚ),
      ((expand_routes_loop row t s ds).map RouteRow.f_distancia).sum
        = row.f_distancia * ds.sum / t := by
  intro ds
  induction ds with
  | nil => intro s; simp [expand_routes_loop]
  | cons d ds ih =>
    intro s
    cases ds with
    | nil => simp [expand_routes_loop, mul_div_assoc]
    | cons d2 ds2 =>
      have h := ih (s + d)
      simp only [expand_routes_loop, List.map_cons, List.sum_cons, h]
      ring

theorem expand_routes_loop_dur_sum (row : RouteRow) (t : ℚ) :
    ∀ (ds : List ℚ) (s : ℚ), ds ≠ [] →
      ((expand_routes_loop row t s ds).map
          (fun c => c.o_fecha_final - c.o_fecha_inicial)).sum
        = row.o_fecha_final - s := by
  intro ds
  induction ds with
  | nil => intro s h; exact absurd rfl h
  | cons d ds ih =>
    intro s _
    cases ds with
    | nil => simp [expand_routes_loop]
    | cons d2 ds2 =>
      have h := ih (s + d) (by simp)
      simp only [expand_routes_loop, List.map_cons, List.sum_cons, h]
      ring

theorem expand_routes_loop_last (row : RouteRow) (t : ℚ) :
    ∀ (ds : List ℚ) (s : ℚ), ds ≠ [] →
      ((expand_routes_loop row t s ds).getLast?).map RouteRow.o_fecha_final
        = some row.o_fecha_final := by
  intro ds
  induction ds with
  | nil => intro s h; exact absurd rfl h
  | cons d ds ih =>
    intro s _
    cases ds with
    | nil => simp [expand_routes_loop]
    | cons d2 ds2 =>
      have h := ih (s + d) (by simp)
      have hne2 : expand_routes_loop row t (s + d) (d2 :: ds2) ≠ [] := by
        intro hcon
        have hlen := expand_routes_loop_length row t (d2 :: ds2) (s + d)
        rw [hcon] at hlen
        simp at hlen
      obtain ⟨y, ys, hys⟩ := List.exists_cons_of_ne_nil hne2
      rw [hys] at h
      simp only [expand_routes_loop, hys, List.getLast?_cons_cons]
      exact h

theorem sum_map_div_mul (l : List ℚ) (s t : ℚ) :
    (l.map (fun v => v / s * t)).sum = l.sum / s * t := by
  induction l with
  | nil => simp
  | cons a l ih =>
    simp only [List.map_cons, List.sum_cons, ih]
    ring

theorem sum_pos_of_bounds (l : List ℚ) (hne : l ≠ [])
    (hlo : ∀ v ∈ l, (0.8 : ℚ) ≤ v ∧ v ≤ 1.2) : 0 < l.sum := by
  cases l with
  | nil => exact absurd rfl hne
  | cons a l =>
    have ha : (0.8 : ℚ) ≤ a := (hlo a (List.mem_cons_self a l)).1
    have hl : 0 ≤ l.sum := by
      apply List.sum_nonneg
      intro v hv
      have := (hlo v (List.mem_cons_of_mem a hv)).1
      linarith
    simp only [List.sum_cons]
    linarith

/-! ## Claim C1 -/

/-- Claim C1, counterexample: the row with distance 30000, `avgDistance`
8000 and `maxDistance` 12000 is expanded into 3 child rows, not the
`⌈30000 / 8000⌉ = 4` children the claim states — the code uses floor
division `route_distance // avg_distance`. -/
theorem apply_split_routes_ceil_refuted :
    (apply_split_routes_row ⟨0, 1800, 30000⟩ 8000 12000 (fun _ => 1)).length = 3
    ∧ ⌈(30000 : ℚ) / 8000⌉ = 4 ∧ (3 : ℕ) ≠ 4 := by
  refine ⟨?_, ?_, by norm_num⟩
  · norm_num [apply_split_routes_row, adjust_route_distribution,
      expand_routes_based_on_real_routes, expand_routes_loop]
  · rw [Int.ceil_eq_iff]
    norm_num

/-- Claim C1 as amended: a row whose distance exceeds the configured
`maxDistance` is expanded into exactly `k = ⌊distance / avgDistance⌋`
child rows (floor division, not ceiling); in particular the row with
distance 30000 and `avgDistance` 8000 (`maxDistance` 12000) is expanded
into 3 children. -/
theorem apply_split_routes_floor_count (row : RouteRow)
    (avg_distance max_distance : ℚ) (draw : ℕ → ℚ)
    (h : row.f_distancia > max_distance) :
    (apply_split_routes_row row avg_distance max_distance draw).length
      = (⌊row.f_distancia / avg_distance⌋).toNat := by
  unfold apply_split_routes_row expand_routes_based_on_real_routes
  rw [expand_routes_loop_length]
  simp only [List.length_map, List.length_range]
  congr 1
  unfold adjust_route_distribution
  dsimp only
  rw [if_pos h]
  split <;> rfl

/-- Witness for C1: the concrete split of the 30000-meter row. -/
theorem apply_split_routes_floor_count_witness :
    (30000 : ℚ) > 12000
    ∧ (apply_split_routes_row ⟨0, 1800, 30000⟩ 8000 12000 (fun _ => 1)).length
        = (⌊(30000 : ℚ) / 8000⌋).toNat :=
  ⟨by decide, apply_split_routes_floor_count ⟨0, 1800, 30000⟩ 8000 12000 (fun _ => 1) (by decide)⟩

/-! ## Claim C4 -/

/-- Claim C4: for every route expanded by
`expand_routes_based_on_real_routes` and every jitter draw in
`[0.8, 1.2]`, the children's distances sum to the route's distance, the
children's durations sum to the route's duration, the first child starts
at the route's start timestamp, and the last child ends at the route's end
timestamp. -/
theorem expand_routes_conservation (row : RouteRow) (jitter : List ℚ)
    (hne : jitter ≠ [])
    (hrange : ∀ v ∈ jitter, (0.8 : ℚ) ≤ v ∧ v ≤ 1.2)
    (hdur : row.o_fecha_inicial < row.o_fecha_final) :
    ((expand_routes_based_on_real_routes row jitter).map RouteRow.f_distancia).sum
        = row.f_distancia
    ∧ ((expand_routes_based_on_real_routes row jitter).map
          (fun c => c.o_fecha_final - c.o_fecha_inicial)).sum
        = row.o_fecha_final - row.o_fecha_inicial
    ∧ ((expand_routes_based_on_real_routes row jitter).head?).map RouteRow.o_fecha_inicial
        = some row.o_fecha_inicial
    ∧ ((expand_routes_based_on_real_routes row jitter).getLast?).map RouteRow.o_fecha_final
        = some row.o_fecha_final := by
  have hs : 0 < jitter.sum := sum_pos_of_bounds jitter hne hrange
  have ht : row.o_fecha_final - row.o_fecha_inicial ≠ 0 := by linarith
  have hnsum : (jitter.map
      (fun v => v / jitter.sum * (row.o_fecha_final - row.o_fecha_inicial))).sum
      = row.o_fecha_final - row.o_fecha_inicial := by
    rw [sum_map_div_mul, div_self (ne_of_gt hs), one_mul]
  have hnne : jitter.map
      (fun v => v / jitter.sum * (row.o_fecha_final - row.o_fecha_inicial)) ≠ [] := by
    simpa using hne
  refine ⟨?_, ?_, ?_, ?_⟩
  · unfold expand_routes_based_on_real_routes
    rw [expand_routes_loop_dist_sum, hnsum, mul_div_assoc, div_self ht, mul_one]
  · unfold expand_routes_based_on_real_routes
    rw [expand_routes_loop_dur_sum row _ _ _ hnne]
  · obtain ⟨v, vs, hvs⟩ := List.exists_cons_of_ne_nil hne
    subst hvs
    cases vs with
    | nil => simp [expand_routes_based_on_real_routes, expand_routes_loop]
    | cons v2 vs2 => simp [expand_routes_based_on_real_routes, expand_routes_loop]
  · unfold expand_routes_based_on_real_routes
    rw [expand_routes_loop_last row _ _ _ hnne]

/-- Witness for C4: the 30000-meter, 1800-second row split into three
children with jitter draws `[1, 1, 1]`. -/
theorem expand_routes_conservation_witness :
    (([1, 1, 1] : List ℚ) ≠ []
      ∧ (∀ v ∈ ([1, 1, 1] : List ℚ), (0.8 : ℚ) ≤ v ∧ v ≤ 1.2)
      ∧ (0 : ℚ) < 1800)
    ∧ (((expand_routes_based_on_real_routes ⟨0, 1800, 30000⟩ [1, 1, 1]).map
          RouteRow.f_distancia).sum = 30000
      ∧ ((expand_routes_based_on_real_routes ⟨0, 1800, 30000⟩ [1, 1, 1]).map
            (fun c => c.o_fecha_final - c.o_fecha_inicial)).sum = 1800 - 0
      ∧ ((expand_routes_based_on_real_routes ⟨0, 1800, 30000⟩ [1, 1, 1]).head?).map
            RouteRow.o_fecha_inicial = some 0
      ∧ ((expand_routes_based_on_real_routes ⟨0, 1800, 30000⟩ [1, 1, 1]).getLast?).map
            RouteRow.o_fecha_final = some 1800) :=
  ⟨⟨by decide, by norm_num, by norm_num⟩,
    expand_routes_conservation ⟨0, 1800, 30000⟩ [1, 1, 1]
      (by decide) (by norm_num) (by norm_num)⟩

/-! ## Claim C2 -/

/-- Claim C2, counterexample: the configured breakpoints map
`avgDelay = 20` to 600 (it is below the limit 26), so the second credit
scores `(600 + 400) / 2 = 500`, not 400, and the triangular weighted mean
of the two credits is `2000/3`, not 600. -/
theorem scoring_scenario_refuted :
    puntaje_del_credito 20 50 ≠ 400
    ∧ ponderar_puntajes [puntaje_del_credito 5 10, puntaje_del_credito 20 50] ≠ 600 := by
  constructor
  · norm_num [puntaje_del_credito, asignar_puntajes_personalizados, asignar_puntaje_loop,
      limites_atraso_promedio, puntajes_atraso_promedio,
      limites_atraso_acumulado, puntajes_atraso_acumulado]
  · norm_num [puntaje_del_credito, asignar_puntajes_personalizados, asignar_puntaje_loop,
      limites_atraso_promedio, puntajes_atraso_promedio,
      limites_atraso_acumulado, puntajes_atraso_acumulado,
      ponderar_puntajes, List.range_succ]

/-- Claim C2 as amended: scoring the two credits
`{avgDelay = 5, cumDelay = 10}` and `{avgDelay = 20, cumDelay = 50}`,
issued in that order, yields per-credit scores `[1000, 500]` under the
configured breakpoint mappings (`s_avg(20) = 600`, `s_cum(50) = 400`), and
triangular weighted mean `(1/3)·1000 + (2/3)·500 = 2000/3 ≈ 666.67`. -/
theorem scoring_scenario_values :
    puntaje_del_credito 5 10 = 1000
    ∧ puntaje_del_credito 20 50 = 500
    ∧ ponderar_puntajes [puntaje_del_credito 5 10, puntaje_del_credito 20 50] = 2000 / 3 := by
  refine ⟨?_, ?_, ?_⟩ <;>
    norm_num [puntaje_del_credito, asignar_puntajes_personalizados, asignar_puntaje_loop,
      limites_atraso_promedio, puntajes_atraso_promedio,
      limites_atraso_acumulado, puntajes_atraso_acumulado,
      ponderar_puntajes, List.range_succ]

/-! ## Claim C3 -/

theorem ponderar_puntajes_eq_media (ps : List ℚ) :
    ponderar_puntajes ps = media_ponderada_triangular ps := by
  match ps with
  | [] => simp [ponderar_puntajes, media_ponderada_triangular]
  | [p] => simp [ponderar_puntajes, media_ponderada_triangular, List.range_succ]
  | a :: b :: t => rfl

/-- Claim C3, counterexample: for a client whose two credits arrive with
the later issuance date first, the code's aggregate (input row order)
differs from the spec's (sorted by issuance date ascending): `2000/3`
versus `2500/3`. -/
theorem ponderado_sort_refuted :
    puntaje_ponderado_cliente [⟨1, 2, 5, 10⟩, ⟨1, 1, 20, 50⟩] 1
      ≠ puntaje_ponderado_cliente_spec [⟨1, 2, 5, 10⟩, ⟨1, 1, 20, 50⟩] 1 := by
  norm_num [puntaje_ponderado_cliente, puntaje_ponderado_cliente_spec,
    puntajes_por_cliente, ordenar_por_fecha, insertar_por_fecha, List.filter,
    puntaje_del_credito, asignar_puntajes_personalizados, asignar_puntaje_loop,
    limites_atraso_promedio, puntajes_atraso_promedio,
    limites_atraso_acumulado, puntajes_atraso_acumulado,
    ponderar_puntajes, List.range_succ]

/-- Claim C3 as amended: for every client, the per-client aggregate `W`
equals the triangular weighted mean (weights `1, 2, …, n` normalized to
sum 1) of the per-credit scores taken in the input row order of the
client's credits — no sort by issuance date is applied, so the result does
depend on the input row order. -/
theorem ponderado_row_order_triangular (creditos : List Credito) (cliente : ℕ) :
    puntaje_ponderado_cliente creditos cliente
      = media_ponderada_triangular (puntajes_por_cliente creditos cliente) :=
  ponderar_puntajes_eq_media _

/-! ## Claim C5 -/

/-- Claim C5: the socially adjusted final score equals
`clip(score · (1 + adj), 0, 1000)`, except that it is exactly 0 whenever
the client has a lost credit of their own, a lost referrer, or a lost
referred client; and it always lies in `[0, 1000]`. -/
theorem puntaje_final_ajustado_clip_zero_range (r : ContactoSocial) :
    0 ≤ puntaje_final_ajustado r
    ∧ puntaje_final_ajustado r ≤ 1000
    ∧ ((r.referido_perdido || r.tiene_credito_perdido || r.referidor_perdido) = true →
        puntaje_final_ajustado r = 0)
    ∧ ((r.referido_perdido || r.tiene_credito_perdido || r.referidor_perdido) = false →
        puntaje_final_ajustado r = clip_0_1000 (r.puntaje_final * (1 + r.ajuste_calculado))) := by
  refine ⟨?_, ?_, ?_, ?_⟩
  · exact le_min (le_max_right _ 0) (by norm_num)
  · exact min_le_right _ _
  · intro h
    simp only [puntaje_final_ajustado, puntaje_final_ajustado_sin_clip, h, if_true,
      clip_0_1000]
    norm_num
  · intro h
    have hpf : r.puntaje_final + r.puntaje_final * r.ajuste_calculado
        = r.puntaje_final * (1 + r.ajuste_calculado) := by ring
    simp only [puntaje_final_ajustado, puntaje_final_ajustado_sin_clip, h,
      Bool.false_eq_true, if_false, hpf]

/-- Witness for C5: a flagged row is forced to 0, an unflagged row gets
the clipped `score · (1 + adj)`. -/
theorem puntaje_final_ajustado_clip_zero_range_witness :
    puntaje_final_ajustado ⟨true, false, false, 700, 0⟩ = 0
    ∧ puntaje_final_ajustado ⟨false, false, false, 700, 1 / 2⟩
        = clip_0_1000 (700 * (1 + 1 / 2)) :=
  ⟨(puntaje_final_ajustado_clip_zero_range ⟨true, false, false, 700, 0⟩).2.2.1 rfl,
    (puntaje_final_ajustado_clip_zero_range ⟨false, false, false, 700, 1 / 2⟩).2.2.2 rfl⟩

/-! ## Claim C10 -/

/-- Claim C10: the pre-adjustment composite score is not bounded by 1000 —
a client with no lost credit, both quartile scores 1000, and credits with
zero delays and 100% fulfilled agreements gets per-credit scores 1050
(1000 plus the 50-point bonus) and composite
`0·500 + 0.1·1000 + 0.1·1000 + 0.8·1050 = 1040`; only the socially
adjusted score is clipped to 1000. -/
theorem composite_score_not_capped :
    puntaje_del_credito 0 0 = 1000
    ∧ asignar_bonus_acuerdos 3 3 (puntaje_del_credito 0 0) = 1050
    ∧ ponderar_puntajes [1050, 1050] = 1050
    ∧ aplicar_calculo ⟨false, 1000, 1000, 1050⟩ = 1040
    ∧ ¬ aplicar_calculo ⟨false, 1000, 1000, 1050⟩ ≤ 1000
    ∧ puntaje_final_ajustado ⟨false, false, false, 1040, 0⟩ = 1000 := by
  have h1 : puntaje_del_credito 0 0 = 1000 := by
    norm_num [puntaje_del_credito, asignar_puntajes_personalizados, asignar_puntaje_loop,
      limites_atraso_promedio, puntajes_atraso_promedio,
      limites_atraso_acumulado, puntajes_atraso_acumulado]
  have h4 : aplicar_calculo ⟨false, 1000, 1000, 1050⟩ = 1040 := by
    norm_num [aplicar_calculo, calcular_score, W1, W2, W3, W4]
  refine ⟨h1, ?_, ?_, h4, by rw [h4]; norm_num, ?_⟩
  · rw [h1]
    norm_num [asignar_bonus_acuerdos, bonus_value]
  · norm_num [ponderar_puntajes, List.range_succ]
  · norm_num [puntaje_final_ajustado, puntaje_final_ajustado_sin_clip, clip_0_1000]

/-! ## Claim C6 -/

/-- Claim C6, counterexample: with a 900-second budget and 900 seconds
already elapsed before the first unpublished route, the publisher submits
nothing and the flushed checkpoint map is unchanged, but the handler does
not exit non-fatally: it raises (`Except.error`), so `isOk` is `false`. -/
theorem budget_exhaustion_nonfatal_refuted :
    (publish_to_celo_routes 900 [⟨1, 900, .confirmed 1 "h"⟩] 7 []).1 = false
    ∧ (route_publisher_handler 900 7 [⟨1, 900, .confirmed 1 "h"⟩] []).1 = []
    ∧ (route_publisher_handler 900 7 [⟨1, 900, .confirmed 1 "h"⟩] []).2.isOk = false := by
  have hloop : publish_to_celo_routes 900 [⟨1, 900, .confirmed 1 "h"⟩] 7 []
      = (false, []) := by
    norm_num [publish_to_celo_routes]
  refine ⟨by rw [hloop], ?_, ?_⟩
  · simp [route_publisher_handler, hloop]
  · simp [route_publisher_handler, hloop, Except.isOk, Except.toBool]

/-- Claim C6 as amended: whenever the route publisher finds, before
starting a new (not yet published) record, that elapsed time exceeds
`0.9 × timeoutSeconds`, it submits no further transactions and returns
`allSuccess = false` with the checkpoint map unchanged; the handler still
flushes that map to the object store, but then raises an exception (the
invocation fails) instead of exiting non-fatally with a partial-success
status. -/
theorem budget_exhaustion_flush_and_raise (timeout : ℚ) (nonce0 : ℕ)
    (r : RouteObs) (rs : List RouteObs) (published0 : List (ℕ × TxMeta))
    (hskip : (published0.map Prod.fst).contains r.routeID = false)
    (helapsed : r.elapsed > timeout * 0.9) :
    publish_to_celo_routes timeout (r :: rs) nonce0 published0 = (false, published0)
    ∧ (route_publisher_handler timeout nonce0 (r :: rs) published0).1 = published0
    ∧ (route_publisher_handler timeout nonce0 (r :: rs) published0).2.isOk = false := by
  have hloop : publish_to_celo_routes timeout (r :: rs) nonce0 published0
      = (false, published0) := by
    simp only [publish_to_celo_routes, hskip, Bool.false_eq_true, if_false,
      if_pos helapsed]
  refine ⟨hloop, ?_, ?_⟩
  · simp [route_publisher_handler, hloop]
  · simp [route_publisher_handler, hloop, Except.isOk, Except.toBool]

/-- Witness for C6: the 900-second budget exhausted before an unpublished
route. -/
theorem budget_exhaustion_flush_and_raise_witness :
    (([] : List (ℕ × TxMeta)).map Prod.fst).contains 1 = false
    ∧ (900 : ℚ) > 900 * 0.9
    ∧ (publish_to_celo_routes 900 [⟨1, 900, .noReceipt⟩] 7 [] = (false, [])
      ∧ (route_publisher_handler 900 7 [⟨1, 900, .noReceipt⟩] []).1 = []
      ∧ (route_publisher_handler 900 7 [⟨1, 900, .noReceipt⟩] []).2.isOk = false) :=
  ⟨by decide, by norm_num,
    budget_exhaustion_flush_and_raise 900 7 ⟨1, 900, .noReceipt⟩ [] []
      (by decide) (by norm_num)⟩

/-! ## Claim C8 -/

/-- Claim C8: a revert whose message contains
`"ERC721: token already minted"` is benign for both publishers — the route
publisher records the checkpoint-map entry and continues with the
remaining routes, and the credit publisher marks the credit's published
flag and continues with the remaining credits. -/
theorem already_minted_benign (timeout : ℚ) (nonce count : ℕ) (m : String)
    (r : RouteObs) (rs : List RouteObs) (published : List (ℕ × TxMeta))
    (c : CreditObs) (cs : List CreditObs) (marked : List ℕ)
    (hr1 : (published.map Prod.fst).contains r.routeID = false)
    (hr2 : ¬ r.elapsed > timeout * 0.9)
    (hr3 : r.result = .errorMsg m)
    (hc1 : c.is_published = false)
    (hc2 : c.result = .errorMsg m)
    (hm : str_contains m "ERC721: token already minted" = true) :
    publish_to_celo_routes timeout (r :: rs) nonce published
      = publish_to_celo_routes timeout rs nonce (published ++ [(r.routeID, .already_minted)])
    ∧ publish_to_celo_credits (c :: cs) nonce count marked
      = publish_to_celo_credits cs nonce (count + 1) (marked ++ [c.creditID]) := by
  constructor
  · simp only [publish_to_celo_routes, hr1, Bool.false_eq_true, if_false,
      if_neg hr2, hr3, hm, if_true]
  · simp only [publish_to_celo_credits, hc1, Bool.false_eq_true, if_false,
      hc2, hm, if_true]

/-- Witness for C8: a concrete already-minted revert on route 5 and
credit 7. -/
theorem already_minted_benign_witness :
    ((([(3, TxMeta.already_minted)] : List (ℕ × TxMeta)).map Prod.fst).contains 5 = false
      ∧ ¬ (10 : ℚ) > 900 * 0.9
      ∧ str_contains "execution reverted: ERC721: token already minted"
          "ERC721: token already minted" = true)
    ∧ (publish_to_celo_routes 900
          [⟨5, 10, .errorMsg "execution reverted: ERC721: token already minted"⟩] 0
          [(3, TxMeta.already_minted)]
        = publish_to_celo_routes 900 [] 0
            ([(3, TxMeta.already_minted)] ++ [(5, TxMeta.already_minted)])
      ∧ publish_to_celo_credits
          [⟨7, false, .errorMsg "execution reverted: ERC721: token already minted"⟩] 0 0 []
        = publish_to_celo_credits [] 0 (0 + 1) ([] ++ [7])) :=
  ⟨⟨by decide, by norm_num, by decide⟩,
    already_minted_benign 900 0 0 "execution reverted: ERC721: token already minted"
      ⟨5, 10, .errorMsg "execution reverted: ERC721: token already minted"⟩ []
      [(3, TxMeta.already_minted)]
      ⟨7, false, .errorMsg "execution reverted: ERC721: token already minted"⟩ [] []
      (by decide) (by norm_num) rfl rfl rfl (by decide)⟩

/-! ## Claim C7 -/

theorem publish_payments_all_success_false (ps : List PaymentObs) :
    ∀ st : PayState, st.all_success = false →
      (publish_to_celo_payments ps st).all_success = false := by
  induction ps with
  | nil => intro st h; exact h
  | cons p ps ih =>
    intro st h
    simp only [publish_to_celo_payments]
    split
    · exact ih st h
    · split
      · exact ih _ (by simpa using h)
      · exact ih _ (by simp)
      · split
        · split
          · exact ih _ (by simpa using h)
          · exact ih _ (by simp)
          · exact ih _ (by simp)
        · exact ih _ (by simpa using h)
        · exact ih _ (by simp)

/-- Claim C7, counterexample: payment 1 fails with the overflow panic, is
retried once with the outstanding balance 300, and the retry fails too —
yet the loop continues and payment 2 is still submitted, published and
marked, contradicting "no further payments are processed". -/
theorem overflow_retry_fatal_refuted :
    publish_to_celo_payments
        [⟨1, 10, 500, false,
            .raised "Panic error 0x11: Arithmetic operation results in underflow or overflow.",
            300, .raised "boom"⟩,
          ⟨2, 11, 100, false, .ok, 0, .ok⟩]
        ⟨0, true, 0, [], []⟩
      = ⟨1, false, 1, [(1, 500), (1, 300), (2, 100)], [2]⟩ := by
  have hc : classify_error
      "Panic error 0x11: Arithmetic operation results in underflow or overflow."
      = .overflow := by
    simp [classify_error,
      show str_contains
        "Panic error 0x11: Arithmetic operation results in underflow or overflow."
        "Panic error 0x11" = true from by decide]
  simp [publish_to_celo_payments, hc]

/-- Claim C7 as amended: on an arithmetic-overflow revert (Panic error
0x11) the publisher re-reads `outstandingBalance(creditId)` and re-submits
exactly once with `amount = outstandingBalance`; if this single retry also
fails, `all_success` is set to `false` for the batch, but the loop
continues with the remaining payments (the batch failure surfaces only at
the end, when the handler raises). -/
theorem overflow_retry_once_continue (p : PaymentObs) (ps : List PaymentObs)
    (st : PayState) (m : String)
    (h1 : p.is_published = false)
    (h2 : p.first_attempt = .raised m)
    (h3 : str_contains m "Panic error 0x11" = true)
    (h4 : p.retry_attempt ≠ .ok) :
    publish_to_celo_payments (p :: ps) st
      = publish_to_celo_payments ps
          { st with all_success := false,
                    submissions := st.submissions
                      ++ [(p.paymentID, p.amount), (p.paymentID, p.outstanding_balance)] }
    ∧ (publish_to_celo_payments (p :: ps) st).all_success = false := by
  have hclass : classify_error m = .overflow := by
    simp [classify_error, h3]
  have hstep : publish_to_celo_payments (p :: ps) st
      = publish_to_celo_payments ps
          { st with all_success := false,
                    submissions := st.submissions
                      ++ [(p.paymentID, p.amount), (p.paymentID, p.outstanding_balance)] } := by
    simp only [publish_to_celo_payments, h1, Bool.false_eq_true, if_false, h2, hclass]
    cases hretry : p.retry_attempt with
    | ok => exact absurd hretry h4
    | noReceipt =>
      simp only [List.append_assoc, List.cons_append, List.nil_append]
    | raised m2 =>
      simp only [List.append_assoc, List.cons_append, List.nil_append]
  refine ⟨hstep, ?_⟩
  rw [hstep]
  exact publish_payments_all_success_false ps _ rfl

/-- Witness for C7: a concrete overflow payment whose retry raises. -/
theorem overflow_retry_once_continue_witness :
    ((false : Bool) = false
      ∧ str_contains
          "Panic error 0x11: Arithmetic operation results in underflow or overflow."
          "Panic error 0x11" = true
      ∧ PayAttempt.raised "boom" ≠ PayAttempt.ok)
    ∧ (publish_to_celo_payments
          [⟨1, 10, 500, false,
              .raised "Panic error 0x11: Arithmetic operation results in underflow or overflow.",
              300, .raised "boom"⟩]
          ⟨0, true, 0, [], []⟩
        = publish_to_celo_payments [] ⟨0, false, 0, [(1, 500), (1, 300)], []⟩
      ∧ (publish_to_celo_payments
            [⟨1, 10, 500, false,
                .raised "Panic error 0x11: Arithmetic operation results in underflow or overflow.",
                300, .raised "boom"⟩]
            ⟨0, true, 0, [], []⟩).all_success = false) :=
  ⟨⟨rfl, by decide, by decide⟩,
    overflow_retry_once_continue
      ⟨1, 10, 500, false,
        .raised "Panic error 0x11: Arithmetic operation results in underflow or overflow.",
        300, .raised "boom"⟩
      [] ⟨0, true, 0, [], []⟩
      "Panic error 0x11: Arithmetic operation results in underflow or overflow."
      rfl rfl (by decide) (by decide)⟩

/-! ## Claim C9 -/

theorem le_foldl_max (l : List ℤ) : ∀ a : ℤ, a ≤ l.foldl max a := by
  induction l with
  | nil => intro a; exact le_refl a
  | cons b t ih => intro a; exact le_trans (le_max_left a b) (ih (max a b))

theorem mem_le_foldl_max (l : List ℤ) : ∀ (a x : ℤ), x ∈ l → x ≤ l.foldl max a := by
  induction l with
  | nil => intro a x hx; simp at hx
  | cons b t ih =>
    intro a x hx
    rcases List.mem_cons.mp hx with rfl | hx
    · exact le_trans (le_max_right a x) (le_foldl_max t (max a x))
    · exact ih (max a b) x hx

theorem foldl_max_le (l : List ℤ) :
    ∀ (a b : ℤ), a ≤ b → (∀ x ∈ l, x ≤ b) → l.foldl max a ≤ b := by
  induction l with
  | nil => intro a b ha _; exact ha
  | cons c t ih =>
    intro a b ha h
    exact ih (max a c) b (max_le ha (h c (List.mem_cons_self c t)))
      (fun x hx => h x (List.mem_cons_of_mem c hx))

theorem mem_le_extract_last_ID (historic : List ℤ) (x : ℤ) (hx : x ∈ historic) :
    x ≤ extract_last_ID historic := by
  cases historic with
  | nil => simp at hx
  | cons h t =>
    rcases List.mem_cons.mp hx with rfl | hx
    · exact le_foldl_max t x
    · exact mem_le_foldl_max t h x hx

theorem extract_last_ID_eq_of (l : List ℤ) (b : ℤ) (hmem : b ∈ l)
    (hub : ∀ x ∈ l, x ≤ b) : extract_last_ID l = b := by
  cases l with
  | nil => simp at hmem
  | cons h t =>
    exact le_antisymm
      (foldl_max_le t h b (hub h (List.mem_cons_self h t))
        (fun x hx => hub x (List.mem_cons_of_mem h hx)))
      (mem_le_extract_last_ID (h :: t) b hmem)

/-- Claim C9: given a historic ID store with maximum `M`, a transform run
over `n` surviving rows assigns the IDs `M+1, M+2, …, M+n` in row order,
each strictly greater than every previously issued ID, and appends them to
the store so that the store's new maximum is `M + n` — any later run
starts above `M + n`. -/
theorem configure_roda_ids_monotonic (historic : List ℤ) (n : ℕ) :
    (configure_roda_ids historic n).1
        = (List.range n).map (fun i : ℕ => extract_last_ID historic + 1 + (i : ℤ))
    ∧ (∀ x ∈ historic, ∀ y ∈ (configure_roda_ids historic n).1, x < y)
    ∧ (1 ≤ n → extract_last_ID (configure_roda_ids historic n).2
        = extract_last_ID historic + n) := by
  refine ⟨rfl, ?_, ?_⟩
  · intro x hx y hy
    have hy2 : y ∈ (List.range n).map
        (fun i : ℕ => extract_last_ID historic + 1 + (i : ℤ)) := hy
    obtain ⟨i, hi, rfl⟩ := List.mem_map.mp hy2
    have hxle := mem_le_extract_last_ID historic x hx
    have hi0 : (0 : ℤ) ≤ (i : ℤ) := Int.natCast_nonneg i
    linarith
  · intro hn
    apply extract_last_ID_eq_of
    · have hmem : extract_last_ID historic + (n : ℤ)
          ∈ (List.range n).map (fun i : ℕ => extract_last_ID historic + 1 + (i : ℤ)) := by
        refine List.mem_map.mpr ⟨n - 1, List.mem_range.mpr (by omega), ?_⟩
        have hcast : ((n - 1 : ℕ) : ℤ) = (n : ℤ) - 1 := by omega
        rw [hcast]
        ring
      exact List.mem_append.mpr (Or.inr hmem)
    · intro x hx
      have hx2 : x ∈ historic ++ (List.range n).map
          (fun i : ℕ => extract_last_ID historic + 1 + (i : ℤ)) := hx
      rcases List.mem_append.mp hx2 with hx3 | hx3
      · have := mem_le_extract_last_ID historic x hx3
        have hn0 : (0 : ℤ) ≤ (n : ℤ) := Int.natCast_nonneg n
        linarith
      · obtain ⟨i, hi, rfl⟩ := List.mem_map.mp hx3
        have hi2 : i < n := List.mem_range.mp hi
        have : (i : ℤ) < (n : ℤ) := by exact_mod_cast hi2
        linarith

/-- Witness for C9: the store `[100005, 100002]` (maximum 100005) after a
run over 2 rows has maximum `100005 + 2`. -/
theorem configure_roda_ids_monotonic_witness :
    (1 : ℕ) ≤ 2
    ∧ extract_last_ID (configure_roda_ids [100005, 100002] 2).2
        = extract_last_ID [100005, 100002] + 2 :=
  ⟨by decide, (configure_roda_ids_monotonic [100005, 100002] 2).2.2 (by decide)⟩
